import Mathlib

/-!
Shallow embedding of the react-gopay-miniapp adapter (src/index.ts and
src/types.ts): the bridge envelopes, the generic bridge-call adapters
call and callWithCallbacks, the script-loader effect of useJSAPILoader
with its script-element event handlers, the readiness wiring of
useMiniapp, and the string-argument convenience wrappers.
-/

namespace GopayMiniapp

/-- Error envelope of the GoPay bridge, mirroring GopayErrorResponse in
src/types.ts. The TypeScript interface also carries the literal
discriminant field success = false; here that discriminant is the variant
tag of GopayResponse, so only the four informative fields remain. -/
structure GopayErrorResponse where
  error_code : String
  error_type : String
  error_message : String
  ret : String
deriving Repr, DecidableEq

/-- Success envelope of the GoPay bridge, mirroring GopaySuccessResponse
in src/types.ts: the literal discriminant success = true is the variant
tag of GopayResponse, ret is the return tag, and data is the optional
payload of type T. -/
structure GopaySuccessResponse (T : Type) where
  ret : String
  data : Option T
deriving Repr, DecidableEq

/-- Wire-level response delivered on the success channel of the bridge:
the tagged union GopayResponse of src/types.ts, discriminated by the
success field. -/
inductive GopayResponse (T : Type) where
  | ok (r : GopaySuccessResponse T)
  | err (e : GopayErrorResponse)
deriving Repr, DecidableEq

/-- Discriminant field read by the branch on gopayResponse.success in
call and callWithCallbacks. -/
def GopayResponse.success {T : Type} : GopayResponse T → Bool
  | .ok _ => true
  | .err _ => false

/-- Shape of a synchronously thrown JavaScript value, as distinguished by
the instanceof Error test in the catch blocks: an Error instance carries
a message, any other thrown value does not. -/
inductive Thrown where
  | errorObj (message : String)
  | other
deriving Repr, DecidableEq

/-- Behavior of one invocation of the raw bridge primitive
window.gpContainer.call for the duration of a single call: it either
delivers a response on the success channel, delivers an error on the
failure channel, or throws synchronously. -/
inductive BridgeBehavior (T : Type) where
  | respondSuccess (r : GopayResponse T)
  | respondFailure (e : GopayErrorResponse)
  | throws (t : Thrown)
deriving Repr, DecidableEq

/-- Arguments handed to the raw bridge primitive when it is invoked. -/
structure BridgeInvocation (P : Type) where
  className : String
  methodName : String
  params : P
  timeout : Nat
deriving Repr, DecidableEq

/-- Settlement of the promise returned by call: resolved with a success
envelope or rejected with an error envelope. -/
inductive CallOutcome (T : Type) where
  | resolve (r : GopaySuccessResponse T)
  | reject (e : GopayErrorResponse)
deriving Repr, DecidableEq

/-- Observable result of one run of call: what (if anything) was passed
to the raw bridge primitive, and how the promise settled. -/
structure CallResult (P T : Type) where
  invoked : Option (BridgeInvocation P)
  outcome : CallOutcome T
deriving Repr, DecidableEq

/-- Error envelope built by the not-loaded guard in call and
callWithCallbacks (src/index.ts lines 162-168 and 217-223). -/
def sdkNotLoadedError : GopayErrorResponse :=
  { error_code := "SDK_NOT_LOADED"
    error_type := "JS_BRIDGE_ERROR"
    error_message := "GoPay SDK is not loaded yet"
    ret := "GP_EXCEPTION" }

/-- Error envelope built by the catch blocks of call and
callWithCallbacks from a synchronously thrown value. -/
def callExceptionError (t : Thrown) : GopayErrorResponse :=
  { error_code := "CALL_EXCEPTION"
    error_type := "JS_BRIDGE_ERROR"
    error_message := match t with
      | .errorObj m => m
      | .other => "Unknown error occurred"
    ret := "GP_EXCEPTION" }

/-- Embedding of the promise-based call of useMiniapp (src/index.ts
lines 154-203). gpContainer models window.gpContainer together with the
behavior the bridge will exhibit for this invocation; absence of the
global is the none case. The result records whether the raw primitive
was reached and with which arguments, and how the promise settled. -/
def call {T P : Type} (gpContainer : Option (BridgeBehavior T))
    (className methodName : String) (params : P) (timeout : Nat) :
    CallResult P T :=
  match gpContainer with
  | none => { invoked := none, outcome := .reject sdkNotLoadedError }
  | some bridge =>
    let inv : BridgeInvocation P :=
      { className := className, methodName := methodName
        params := params, timeout := timeout }
    match bridge with
    | .respondSuccess gopayResponse =>
      match gopayResponse with
      | .ok s => { invoked := some inv, outcome := .resolve s }
      | .err e => { invoked := some inv, outcome := .reject e }
    | .respondFailure e => { invoked := some inv, outcome := .reject e }
    | .throws t => { invoked := some inv, outcome := .reject (callExceptionError t) }

/-- Which of the two supplied callbacks callWithCallbacks fired, and with
which argument. -/
inductive CallbackFired (T : Type) where
  | onSuccess (r : GopaySuccessResponse T)
  | onFailure (e : GopayErrorResponse)
deriving Repr, DecidableEq

/-- Embedding of the callback-based callWithCallbacks of useMiniapp
(src/index.ts lines 208-256): same guard, dispatch and exception
normalization as call, reporting the outcome through the success or
failure callback instead of a promise. -/
def callWithCallbacks {T P : Type} (gpContainer : Option (BridgeBehavior T))
    (className methodName : String) (params : P) (timeout : Nat) :
    Option (BridgeInvocation P) × CallbackFired T :=
  match gpContainer with
  | none => (none, .onFailure sdkNotLoadedError)
  | some bridge =>
    let inv : BridgeInvocation P :=
      { className := className, methodName := methodName
        params := params, timeout := timeout }
    match bridge with
    | .respondSuccess gopayResponse =>
      match gopayResponse with
      | .ok s => (some inv, .onSuccess s)
      | .err e => (some inv, .onFailure e)
    | .respondFailure e => (some inv, .onFailure e)
    | .throws t => (some inv, .onFailure (callExceptionError t))

/-- Convenience wrapper getUserConsent (src/index.ts lines 328-330):
shapes the string argument under the consent_name key and passes the
hard-coded class and method names to call. dt is the defaultTimeout that
call receives when its timeout argument is omitted. -/
def getUserConsent {T : Type} (gpContainer : Option (BridgeBehavior T))
    (dt : Nat) (consentName : String) : CallResult (List (String × String)) T :=
  call gpContainer "GPConsent" "getUserConsent" [("consent_name", consentName)] dt

/-- Convenience wrapper launchDeeplink (src/index.ts lines 272-274):
shapes the string argument under the deeplink key and passes the
hard-coded class and method names to call. -/
def launchDeeplink {T : Type} (gpContainer : Option (BridgeBehavior T))
    (dt : Nat) (deeplink : String) : CallResult (List (String × String)) T :=
  call gpContainer "GPNavigator" "launchDeeplink" [("deeplink", deeplink)] dt

/-- Fixed SDK script URL (GOPAY_SDK_URL in src/index.ts). -/
def GOPAY_SDK_URL : String := "https://gwk.gopayapi.com/sdk/stable/gp-container.min.js"

/-- Mutable state of one useJSAPILoader instance: the loadedRef
idempotency guard and the three reactively exposed fields isLoaded,
isLoading and error. -/
structure LoaderState where
  loadedRef : Bool
  isLoaded : Bool
  isLoading : Bool
  error : Option String
deriving Repr, DecidableEq

/-- State of a freshly mounted useJSAPILoader instance. -/
def initLoaderState : LoaderState :=
  { loadedRef := false, isLoaded := false, isLoading := false, error := none }

/-- What document.querySelector finds for the target URL: no script
element, or one whose data-loaded marker attribute is present or not. -/
inductive ExistingScript where
  | absent
  | found (dataLoaded : Bool)
deriving Repr, DecidableEq

/-- Observable effect of one loader step (the setup effect body or one of
the script-element event handlers): the new state, how many times onLoad
and onError fired, whether a new script element was created, whether a
one-time load listener was attached to an existing element, and whether
the data-loaded marker attribute was set. -/
structure LoaderStep where
  state : LoaderState
  onLoadCalls : Nat
  onErrorCalls : Nat
  createdScript : Bool
  attachedLoadListener : Bool
  setDataLoadedAttr : Bool
deriving Repr, DecidableEq

/-- Embedding of the effect body of useJSAPILoader (src/index.ts lines
44-101). skipIfExists is none when the option is not supplied and some b
when supplied and returning b at this activation; existing is what the
document query finds. The cleanup function and the deferred load and
error handlers of a newly created element are modelled separately by
scriptOnLoad, scriptOnError and existingScriptLoadListener. -/
def useJSAPILoaderEffect (st : LoaderState) (skipIfExists : Option Bool)
    (existing : ExistingScript) : LoaderStep :=
  if st.loadedRef then
    { state := st, onLoadCalls := 0, onErrorCalls := 0
      createdScript := false, attachedLoadListener := false, setDataLoadedAttr := false }
  else if skipIfExists.getD false then
    { state := { st with loadedRef := true, isLoaded := true }
      onLoadCalls := 1, onErrorCalls := 0
      createdScript := false, attachedLoadListener := false, setDataLoadedAttr := false }
  else
    match existing with
    | .found true =>
      { state := { st with loadedRef := true, isLoaded := true }
        onLoadCalls := 1, onErrorCalls := 0
        createdScript := false, attachedLoadListener := false, setDataLoadedAttr := false }
    | .found false =>
      { state := st, onLoadCalls := 0, onErrorCalls := 0
        createdScript := false, attachedLoadListener := true, setDataLoadedAttr := false }
    | .absent =>
      { state := { st with isLoading := true }
        onLoadCalls := 0, onErrorCalls := 0
        createdScript := true, attachedLoadListener := false, setDataLoadedAttr := false }

/-- Load handler installed on a newly created script element (src/index.ts
lines 77-83): marks the element with data-loaded, latches loadedRef, sets
isLoaded true and isLoading false, and fires onLoad once. -/
def scriptOnLoad (st : LoaderState) : LoaderStep :=
  { state := { st with loadedRef := true, isLoaded := true, isLoading := false }
    onLoadCalls := 1, onErrorCalls := 0
    createdScript := false, attachedLoadListener := false, setDataLoadedAttr := true }

/-- Error handler installed on a newly created script element
(src/index.ts lines 85-91): records the descriptive error message with
the URL, clears isLoading, and fires onError once with the event. -/
def scriptOnError (st : LoaderState) : LoaderStep :=
  { state := { st with
      error := some ("Failed to load script: " ++ GOPAY_SDK_URL)
      isLoading := false }
    onLoadCalls := 0, onErrorCalls := 1
    createdScript := false, attachedLoadListener := false, setDataLoadedAttr := false }

/-- One-time load listener attached to an already present script element
(src/index.ts lines 61-65): latches loadedRef, sets isLoaded true and
fires onLoad once. -/
def existingScriptLoadListener (st : LoaderState) : LoaderStep :=
  { state := { st with loadedRef := true, isLoaded := true }
    onLoadCalls := 1, onErrorCalls := 0
    createdScript := false, attachedLoadListener := false, setDataLoadedAttr := false }

/-- Number of script elements with the target URL in the document. -/
def scriptCount : ExistingScript → Nat
  | .absent => 0
  | .found _ => 1

/-- One loader activation by a fresh instance against a document: runs the
effect from the fresh state and returns the step together with the
document afterwards (a created element appears in the document without
the data-loaded marker yet). -/
def activate (skipIfExists : Option Bool) (doc : ExistingScript) :
    LoaderStep × ExistingScript :=
  let r := useJSAPILoaderEffect initLoaderState skipIfExists doc
  (r, if r.createdScript then ExistingScript.found false else doc)

/-- Readiness state owned by useMiniapp: the readyRef latch and the
exposed isReady flag (src/index.ts lines 134-135). -/
structure MiniappState where
  readyRef : Bool
  isReady : Bool
deriving Repr, DecidableEq

/-- Readiness state of a freshly mounted useMiniapp instance. -/
def initMiniappState : MiniappState :=
  { readyRef := false, isReady := false }

/-- Embedding of the onLoad handler useMiniapp hands to useJSAPILoader
(src/index.ts lines 139-145): guarded by readyRef, it latches readyRef,
sets isReady true and invokes onReady. Returns the new state and the
number of onReady invocations. -/
def miniappOnLoad (st : MiniappState) : MiniappState × Nat :=
  if st.readyRef then (st, 0)
  else ({ readyRef := true, isReady := true }, 1)

/-- Embedding of the skipIfExists predicate useMiniapp hands to
useJSAPILoader (src/index.ts line 138): true exactly when
window.gpContainer is defined. -/
def miniappSkipIfExists {T : Type} (gpContainer : Option (BridgeBehavior T)) : Bool :=
  gpContainer.isSome

/-- Runs n successive firings of the onLoad handler of useMiniapp,
accumulating the total number of onReady invocations. -/
def runOnLoads (st : MiniappState) : Nat → MiniappState × Nat
  | 0 => (st, 0)
  | n + 1 =>
    let p := miniappOnLoad st
    let q := runOnLoads p.1 n
    (q.1, p.2 + q.2)

/-- Observable result of mounting useMiniapp: the loader step of the
setup effect, the readiness state after every onLoad fired during setup
has been handled, and the number of onReady invocations during setup. -/
structure MiniappSetup where
  loader : LoaderStep
  ready : MiniappState
  onReadyCalls : Nat
deriving Repr, DecidableEq

/-- Embedding of mounting useMiniapp over a given global bridge and
document (src/index.ts lines 127-149): the loader effect runs with
skipIfExists testing the presence of window.gpContainer, and every onLoad
it fires during setup runs the guarded readiness handler. -/
def useMiniappSetup {T : Type} (gpContainer : Option (BridgeBehavior T))
    (doc : ExistingScript) : MiniappSetup :=
  let r := useJSAPILoaderEffect initLoaderState (some (miniappSkipIfExists gpContainer)) doc
  let p := runOnLoads initMiniappState r.onLoadCalls
  { loader := r, ready := p.1, onReadyCalls := p.2 }

/-- Helper: whenever the bridge entry point is present, call reaches the
raw primitive with exactly the given arguments, whatever the bridge then
does. -/
theorem call_invoked_of_present {T P : Type} (b : BridgeBehavior T)
    (cn mn : String) (p : P) (t : Nat) :
    (call (some b) cn mn p t).invoked =
      some { className := cn, methodName := mn, params := p, timeout := t } := by
  cases b with
  | respondSuccess r => cases r <;> rfl
  | respondFailure e => rfl
  | throws th => rfl

/-- Helper: whenever the bridge entry point is present, callWithCallbacks
reaches the raw primitive with exactly the given arguments. -/
theorem callWithCallbacks_invoked_of_present {T P : Type} (b : BridgeBehavior T)
    (cn mn : String) (p : P) (t : Nat) :
    (callWithCallbacks (some b) cn mn p t).1 =
      some { className := cn, methodName := mn, params := p, timeout := t } := by
  cases b with
  | respondSuccess r => cases r <;> rfl
  | respondFailure e => rfl
  | throws th => rfl

/-- Helper: once the readyRef latch is set, further onLoad firings change
nothing and fire onReady zero times. -/
theorem runOnLoads_latched (n : Nat) (st : MiniappState) (h : st.readyRef = true) :
    runOnLoads st n = (st, 0) := by
  induction n with
  | zero => rfl
  | succ n ih => simp [runOnLoads, miniappOnLoad, h, ih]

/-- Helper: from the fresh readiness state, at least one onLoad firing
latches the state and fires onReady exactly once. -/
theorem runOnLoads_fresh (n : Nat) (h : 1 ≤ n) :
    runOnLoads initMiniappState n = ({ readyRef := true, isReady := true }, 1) := by
  cases n with
  | zero => exact absurd h (by decide)
  | succ m =>
    simp [runOnLoads, miniappOnLoad, initMiniappState,
      runOnLoads_latched m { readyRef := true, isReady := true } rfl]

/-- Helper: a skipIfExists value that is not supplied-and-true reads as
false in the guard of the loader effect. -/
theorem getD_false_of_ne_some_true {sk : Option Bool} (h : sk ≠ some true) :
    sk.getD false = false := by
  cases sk with
  | none => rfl
  | some b =>
    cases b with
    | false => rfl
    | true => exact absurd rfl h

/-- C1: while the global bridge entry point window.gpContainer is absent,
call rejects and callWithCallbacks fires the failure callback, in both
cases with exactly the envelope carrying error code SDK_NOT_LOADED, error
type JS_BRIDGE_ERROR, error message "GoPay SDK is not loaded yet" and ret
GP_EXCEPTION, and the raw bridge primitive is never invoked. -/
theorem c1_absent_bridge_sdk_not_loaded {T P : Type}
    (cn mn : String) (p : P) (t : Nat) :
    call (T := T) none cn mn p t =
      { invoked := none, outcome := .reject sdkNotLoadedError }
    ∧ callWithCallbacks (T := T) none cn mn p t =
      (none, .onFailure sdkNotLoadedError)
    ∧ sdkNotLoadedError =
      { error_code := "SDK_NOT_LOADED", error_type := "JS_BRIDGE_ERROR"
        error_message := "GoPay SDK is not loaded yet", ret := "GP_EXCEPTION" } :=
  ⟨rfl, rfl, rfl⟩

/-- C2: every error envelope delivered by the bridge, on the failure
channel or on the success channel with the success discriminant false,
makes call reject and callWithCallbacks fire the failure callback with
that exact envelope; a success-channel response with success false is
never treated as success. -/
theorem c2_error_envelopes_propagate_verbatim {T P : Type}
    (e : GopayErrorResponse) (cn mn : String) (p : P) (t : Nat) :
    (call (some (BridgeBehavior.respondFailure (T := T) e)) cn mn p t).outcome =
      .reject e
    ∧ (call (some (BridgeBehavior.respondSuccess (T := T) (.err e))) cn mn p t).outcome =
      .reject e
    ∧ (callWithCallbacks (some (BridgeBehavior.respondFailure (T := T) e)) cn mn p t).2 =
      .onFailure e
    ∧ (callWithCallbacks (some (BridgeBehavior.respondSuccess (T := T) (.err e))) cn mn p t).2 =
      .onFailure e
    ∧ GopayResponse.success (GopayResponse.err (T := T) e) = false :=
  ⟨rfl, rfl, rfl, rfl, rfl⟩

/-- C3: every success-channel response whose success discriminant is true
makes call resolve and callWithCallbacks fire the success callback with
that exact envelope, its optional data payload included, unchanged. -/
theorem c3_success_envelope_resolves_verbatim {T P : Type}
    (s : GopaySuccessResponse T) (cn mn : String) (p : P) (t : Nat) :
    (call (some (BridgeBehavior.respondSuccess (.ok s))) cn mn p t).outcome =
      .resolve s
    ∧ (callWithCallbacks (some (BridgeBehavior.respondSuccess (.ok s))) cn mn p t).2 =
      .onSuccess s
    ∧ GopayResponse.success (GopayResponse.ok s) = true :=
  ⟨rfl, rfl, rfl⟩

/-- C4: if the raw bridge primitive throws synchronously, call rejects
and callWithCallbacks fires the failure callback with an envelope whose
error code is CALL_EXCEPTION, error type JS_BRIDGE_ERROR and ret
GP_EXCEPTION, whose error message is the thrown message when the thrown
value is an Error instance and "Unknown error occurred" otherwise. -/
theorem c4_synchronous_throw_normalized {T P : Type}
    (m : String) (cn mn : String) (p : P) (t : Nat) :
    (call (some (BridgeBehavior.throws (T := T) (.errorObj m))) cn mn p t).outcome =
      .reject { error_code := "CALL_EXCEPTION", error_type := "JS_BRIDGE_ERROR"
                error_message := m, ret := "GP_EXCEPTION" }
    ∧ (call (some (BridgeBehavior.throws (T := T) .other)) cn mn p t).outcome =
      .reject { error_code := "CALL_EXCEPTION", error_type := "JS_BRIDGE_ERROR"
                error_message := "Unknown error occurred", ret := "GP_EXCEPTION" }
    ∧ (callWithCallbacks (some (BridgeBehavior.throws (T := T) (.errorObj m))) cn mn p t).2 =
      .onFailure { error_code := "CALL_EXCEPTION", error_type := "JS_BRIDGE_ERROR"
                   error_message := m, ret := "GP_EXCEPTION" }
    ∧ (callWithCallbacks (some (BridgeBehavior.throws (T := T) .other)) cn mn p t).2 =
      .onFailure { error_code := "CALL_EXCEPTION", error_type := "JS_BRIDGE_ERROR"
                   error_message := "Unknown error occurred", ret := "GP_EXCEPTION" } :=
  ⟨rfl, rfl, rfl, rfl⟩

/-- C5: when the loader activates with the skipIfExists predicate
supplied and returning true, it latches loadedRef, sets isLoaded true,
fires onLoad exactly once synchronously during setup, creates no script
element, attaches no listener and sets no attribute, whatever the
document holds. -/
theorem c5_skip_if_exists_short_circuit {st : LoaderState}
    (ex : ExistingScript) (h : st.loadedRef = false) :
    useJSAPILoaderEffect st (some true) ex =
      { state := { st with loadedRef := true, isLoaded := true }
        onLoadCalls := 1, onErrorCalls := 0
        createdScript := false, attachedLoadListener := false
        setDataLoadedAttr := false } := by
  simp [useJSAPILoaderEffect, h]

/-- Witness for C5 at the fresh loader state and an empty document. -/
theorem c5_skip_if_exists_short_circuit_witness :
    initLoaderState.loadedRef = false
    ∧ useJSAPILoaderEffect initLoaderState (some true) ExistingScript.absent =
      { state := { initLoaderState with loadedRef := true, isLoaded := true }
        onLoadCalls := 1, onErrorCalls := 0
        createdScript := false, attachedLoadListener := false
        setDataLoadedAttr := false } :=
  ⟨rfl, c5_skip_if_exists_short_circuit ExistingScript.absent rfl⟩

/-- C6: the error handler of the created script element sets the error
field to exactly "Failed to load script: " followed by the fixed SDK URL,
clears isLoading, fires onError exactly once, fires onLoad zero times and
creates no script element (no retry); and the errored state is terminal
for the instance, since no other transition of the instance (the setup
effect, the script load handler or the existing-script load listener)
ever modifies the error field. -/
theorem c6_script_error_state_terminal (st : LoaderState) :
    scriptOnError st =
      { state := { st with
          error := some ("Failed to load script: " ++ GOPAY_SDK_URL)
          isLoading := false }
        onLoadCalls := 0, onErrorCalls := 1
        createdScript := false, attachedLoadListener := false
        setDataLoadedAttr := false }
    ∧ (∀ (st' : LoaderState) (sk : Option Bool) (ex : ExistingScript),
        (useJSAPILoaderEffect st' sk ex).state.error = st'.error)
    ∧ (∀ st' : LoaderState, (scriptOnLoad st').state.error = st'.error)
    ∧ (∀ st' : LoaderState, (existingScriptLoadListener st').state.error = st'.error) := by
  refine ⟨rfl, ?_, fun _ => rfl, fun _ => rfl⟩
  intro st' sk ex
  unfold useJSAPILoaderEffect
  split
  · rfl
  · split
    · rfl
    · cases ex with
      | absent => rfl
      | found d => cases d <;> rfl

/-- Helper: the latch conjuncts of the readiness wiring, for a state that
is either fully latched with one onReady fired or fresh with none. -/
theorem readiness_conjs (m : MiniappState) (c : Nat) (L : Bool) (n : Nat)
    (hAB : (m = { readyRef := true, isReady := true } ∧ c = 1 ∧ L = true)
      ∨ (m = initMiniappState ∧ c = 0 ∧ L = false)) :
    m.isReady = L
    ∧ (m.isReady = true → (runOnLoads m n).1.isReady = true)
    ∧ ((runOnLoads m n).1.isReady = true → c + (runOnLoads m n).2 = 1)
    ∧ ((runOnLoads m n).1.isReady = false → c + (runOnLoads m n).2 = 0) := by
  rcases hAB with ⟨hm, hc, hL⟩ | ⟨hm, hc, hL⟩ <;> subst hm <;> subst hc <;> subst hL
  · rw [runOnLoads_latched n _ rfl]
    exact ⟨rfl, fun _ => rfl, fun _ => rfl, fun h => absurd h (by decide)⟩
  · cases n with
    | zero =>
      exact ⟨rfl, fun h => absurd h (by decide),
        fun h => absurd h (by decide), fun _ => rfl⟩
    | succ k =>
      rw [runOnLoads_fresh (k + 1) (Nat.succ_le_succ (Nat.zero_le k))]
      exact ⟨rfl, fun _ => rfl, fun _ => rfl, fun h => absurd h (by decide)⟩

/-- C7 counterexample: with no bridge entry point on the global object
and a document already holding the script element with its data-loaded
marker, mounting useMiniapp sets isReady true and fires onReady even
though the skipIfExists predicate does not detect the entry point, so
the readiness flag is not conditioned on the entry point being
detected. -/
theorem c7_ready_without_entry_point :
    (useMiniappSetup (T := Unit) none (ExistingScript.found true)).ready.isReady = true
    ∧ (useMiniappSetup (T := Unit) none (ExistingScript.found true)).onReadyCalls = 1
    ∧ miniappSkipIfExists (T := Unit) none = false :=
  ⟨rfl, rfl, rfl⟩

/-- C7 amended: the readiness flag equals, at setup, the loader having
reported loaded (the loader being configured to treat a present entry
point as already loaded); once true it is never reset by later onLoad
firings; and onReady fires exactly once when readiness is ever achieved
and zero times otherwise. -/
theorem c7_readiness_latch {T : Type} (gp : Option (BridgeBehavior T))
    (doc : ExistingScript) (n : Nat) :
    (useMiniappSetup gp doc).ready.isReady = (useMiniappSetup gp doc).loader.state.isLoaded
    ∧ ((useMiniappSetup gp doc).ready.isReady = true →
        (runOnLoads (useMiniappSetup gp doc).ready n).1.isReady = true)
    ∧ ((runOnLoads (useMiniappSetup gp doc).ready n).1.isReady = true →
        (useMiniappSetup gp doc).onReadyCalls
          + (runOnLoads (useMiniappSetup gp doc).ready n).2 = 1)
    ∧ ((runOnLoads (useMiniappSetup gp doc).ready n).1.isReady = false →
        (useMiniappSetup gp doc).onReadyCalls
          + (runOnLoads (useMiniappSetup gp doc).ready n).2 = 0) := by
  cases gp with
  | some b => exact readiness_conjs _ _ _ n (Or.inl ⟨rfl, rfl, rfl⟩)
  | none =>
    cases doc with
    | absent => exact readiness_conjs _ _ _ n (Or.inr ⟨rfl, rfl, rfl⟩)
    | found d =>
      cases d with
      | true => exact readiness_conjs _ _ _ n (Or.inl ⟨rfl, rfl, rfl⟩)
      | false => exact readiness_conjs _ _ _ n (Or.inr ⟨rfl, rfl, rfl⟩)

/-- C8: getUserConsent invokes the bridge with class GPConsent, method
getUserConsent and its argument shaped under the consent_name key, and
launchDeeplink invokes the bridge with class GPNavigator, method
launchDeeplink and its argument shaped under the deeplink key, for every
string argument. -/
theorem c8_string_wrappers_shape_params {T : Type} (b : BridgeBehavior T)
    (dt : Nat) (c d : String) :
    (getUserConsent (some b) dt c).invoked =
      some { className := "GPConsent", methodName := "getUserConsent"
             params := [("consent_name", c)], timeout := dt }
    ∧ (launchDeeplink (some b) dt d).invoked =
      some { className := "GPNavigator", methodName := "launchDeeplink"
             params := [("deeplink", d)], timeout := dt } :=
  ⟨call_invoked_of_present b "GPConsent" "getUserConsent" [("consent_name", c)] dt,
   call_invoked_of_present b "GPNavigator" "launchDeeplink" [("deeplink", d)] dt⟩

/-- C9: an activation that finds the script element already in the
document never creates a second element: with the data-loaded marker it
marks loaded and fires onLoad at once, without the marker it attaches the
one-time load listener (which marks loaded and fires onLoad when it
fires); hence two fresh activations against an initially empty document
create exactly one script element and leave exactly one in the
document. -/
theorem c9_existing_script_reused {st : LoaderState} {sk sk1 sk2 : Option Bool}
    (d : Bool) (h1 : st.loadedRef = false) (h2 : sk ≠ some true)
    (h3 : sk1 ≠ some true) (h4 : sk2 ≠ some true) :
    (useJSAPILoaderEffect st sk (ExistingScript.found d)).createdScript = false
    ∧ (d = true →
        useJSAPILoaderEffect st sk (ExistingScript.found d) =
          { state := { st with loadedRef := true, isLoaded := true }
            onLoadCalls := 1, onErrorCalls := 0, createdScript := false
            attachedLoadListener := false, setDataLoadedAttr := false })
    ∧ (d = false →
        useJSAPILoaderEffect st sk (ExistingScript.found d) =
          { state := st, onLoadCalls := 0, onErrorCalls := 0, createdScript := false
            attachedLoadListener := true, setDataLoadedAttr := false }
        ∧ (existingScriptLoadListener st).state.isLoaded = true
        ∧ (existingScriptLoadListener st).onLoadCalls = 1)
    ∧ (cond (activate sk1 ExistingScript.absent).1.createdScript 1 0) +
        (cond (activate sk2 (activate sk1 ExistingScript.absent).2).1.createdScript 1 0) = 1
    ∧ scriptCount (activate sk2 (activate sk1 ExistingScript.absent).2).2 = 1 := by
  have e2 := getD_false_of_ne_some_true h2
  have e3 := getD_false_of_ne_some_true h3
  have e4 := getD_false_of_ne_some_true h4
  refine ⟨?_, ?_, ?_, ?_, ?_⟩
  · cases d <;> simp [useJSAPILoaderEffect, h1, e2]
  · intro hd; subst hd; simp [useJSAPILoaderEffect, h1, e2]
  · intro hd; subst hd
    exact ⟨by simp [useJSAPILoaderEffect, h1, e2], rfl, rfl⟩
  · simp [activate, useJSAPILoaderEffect, initLoaderState, e3, e4]
  · simp [activate, useJSAPILoaderEffect, initLoaderState, e3, e4, scriptCount]

/-- Witness for C9 at the fresh loader state, no skipIfExists supplied
anywhere, and a found element carrying the data-loaded marker. -/
theorem c9_existing_script_reused_witness :
    initLoaderState.loadedRef = false
    ∧ (none : Option Bool) ≠ some true
    ∧ ((useJSAPILoaderEffect initLoaderState none (ExistingScript.found true)).createdScript = false
      ∧ (true = true →
          useJSAPILoaderEffect initLoaderState none (ExistingScript.found true) =
            { state := { initLoaderState with loadedRef := true, isLoaded := true }
              onLoadCalls := 1, onErrorCalls := 0, createdScript := false
              attachedLoadListener := false, setDataLoadedAttr := false })
      ∧ (true = false →
          useJSAPILoaderEffect initLoaderState none (ExistingScript.found true) =
            { state := initLoaderState, onLoadCalls := 0, onErrorCalls := 0
              createdScript := false
              attachedLoadListener := true, setDataLoadedAttr := false }
          ∧ (existingScriptLoadListener initLoaderState).state.isLoaded = true
          ∧ (existingScriptLoadListener initLoaderState).onLoadCalls = 1)
      ∧ (cond (activate none ExistingScript.absent).1.createdScript 1 0) +
          (cond (activate none (activate none ExistingScript.absent).2).1.createdScript 1 0) = 1
      ∧ scriptCount (activate none (activate none ExistingScript.absent).2).2 = 1) :=
  ⟨rfl, by decide,
   c9_existing_script_reused true rfl (by decide) (by decide) (by decide)⟩

/-- C10: the not-loaded guard of call and callWithCallbacks reads only
the presence of window.gpContainer and never the exposed isReady flag:
whenever the entry point is present the raw primitive is invoked with the
given arguments even though the readiness state can still be the fresh
one whose isReady is false, and when the entry point is absent the
SDK_NOT_LOADED rejection fires with no invocation, whatever any readiness
state holds. -/
theorem c10_guard_is_entry_point_presence_only {T P : Type} (b : BridgeBehavior T)
    (cn mn : String) (p : P) (t : Nat) :
    initMiniappState.isReady = false
    ∧ (call (some b) cn mn p t).invoked =
        some { className := cn, methodName := mn, params := p, timeout := t }
    ∧ (callWithCallbacks (some b) cn mn p t).1 =
        some { className := cn, methodName := mn, params := p, timeout := t }
    ∧ (call (T := T) none cn mn p t).invoked = none
    ∧ (call (T := T) none cn mn p t).outcome = CallOutcome.reject sdkNotLoadedError
    ∧ (callWithCallbacks (T := T) none cn mn p t).1 = none :=
  ⟨rfl, call_invoked_of_present b cn mn p t,
   callWithCallbacks_invoked_of_present b cn mn p t, rfl, rfl, rfl⟩

end GopayMiniapp
